import Mathlib

/-!
Shallow embedding of the AmbedkarGPT backend (src/backend/rag_service.py,
src/backend/server.py). External library calls (langchain TextLoader,
CharacterTextSplitter, HuggingFaceEmbeddings, Chroma, OllamaLLM) are
modelled as environment-supplied capabilities; the repository's own control
flow is translated statement by statement.
-/

namespace AmbedkarGPT

/-- A langchain document: page content plus metadata (rag_service.py uses
`doc.page_content` and `doc.metadata`). -/
structure Doc where
  page_content : String
  metadata : List (String × String)
deriving DecidableEq, Repr

/-- The storage-backed vector store: either loaded from a pre-existing
persist directory (`Chroma(persist_directory=..., embedding_function=...)`,
rag_service.py line 76) or built fresh by embedding the split chunks
(`Chroma.from_documents`, line 81). -/
inductive VectorStore where
  | loaded : VectorStore
  | built : List Doc → VectorStore
deriving DecidableEq, Repr

/-- The retriever configuration: `self.vectorstore.as_retriever(search_kwargs={"k": 3})`
(rag_service.py line 97) records the store it reads and the top-k count. -/
structure Retriever where
  store : VectorStore
  k : Nat
deriving DecidableEq, Repr

/-- The assembled qa chain (rag_service.py lines 113-118) captures the
retriever object used for its context branch; prompt, llm and output parser
are fixed. -/
structure QAChain where
  retriever : Retriever
deriving DecidableEq, Repr

/-- The mutable attributes of the singleton RAGService object. `none` models
a Python attribute that is unset / set to None. -/
structure ServiceState where
  initialized : Bool
  vectorstore : Option VectorStore
  qa_chain : Option QAChain
  embeddings : Option Unit
  llm : Option Unit
  retriever : Option Retriever
deriving DecidableEq, Repr

/-- The state of a freshly constructed, never-initialized service object
(`__new__` sets `initialized = False`; `__init__` sets the rest to None). -/
def ServiceState.fresh : ServiceState :=
  ⟨false, none, none, none, none, none⟩

/-- The dict returned by `RAGService.initialize` (status, message, and
optionally `chunks_count`). -/
structure InitResult where
  status : String
  message : String
  chunks_count : Option Nat
deriving DecidableEq, Repr

/-- The exceptions that the translated initialization body can raise:
`FileNotFoundError` (rag_service.py line 51) or a failure of the external
vector-store build (`Chroma.from_documents`). The `except` clause at lines
129-131 logs and re-raises, so the original error reaches the caller. -/
inductive InitError where
  | fileNotFound : InitError
  | buildFailure : String → InitError
deriving DecidableEq, Repr

/-- The observable work items performed by the initialization body, in
program order. `buildVectorStore` stands for `Chroma.from_documents`, which
embeds every chunk and builds and persists a new index; `loadVectorStore`
stands for opening the already-persisted index without embedding chunks. -/
inductive Action where
  | loadDocument : Action
  | splitText : Action
  | loadEmbeddings : Action
  | loadVectorStore : Action
  | buildVectorStore : Action
  | initLLM : Action
  | buildChain : Action
deriving DecidableEq, Repr

/-- The external world that `RAGService.initialize` reads: file-existence
flags, what `TextLoader(...).load()` returns, what the splitter produces
from it, and whether `Chroma.from_documents` succeeds. -/
structure InitEnv where
  speechFileExists : Bool
  chromaDirExists : Bool
  loadedDocs : List Doc
  splitResult : List Doc
  buildOutcome : Except String Unit
deriving Repr

/-- Translation of `RAGService.initialize` (rag_service.py lines 41-131).
Returns the result or the re-raised exception, the mutated service state,
and the list of work actions performed. -/
def initService (env : InitEnv) (s : ServiceState) :
    Except InitError InitResult × ServiceState × List Action :=
  if s.initialized then
    (Except.ok ⟨"already_initialized", "RAG service already initialized", none⟩, s, [])
  else if env.speechFileExists = false then
    (Except.error InitError.fileNotFound, s, [])
  else
    let texts := env.splitResult
    let s1 : ServiceState := { s with embeddings := some () }
    let acts1 := [Action.loadDocument, Action.splitText, Action.loadEmbeddings]
    if env.chromaDirExists then
      let vs := VectorStore.loaded
      let r : Retriever := ⟨vs, 3⟩
      let s2 : ServiceState :=
        { s1 with vectorstore := some vs, llm := some (), retriever := some r,
                  qa_chain := some ⟨r⟩, initialized := true }
      (Except.ok ⟨"success", "RAG service initialized successfully", some texts.length⟩,
        s2, acts1 ++ [Action.loadVectorStore, Action.initLLM, Action.buildChain])
    else
      match env.buildOutcome with
      | Except.error m => (Except.error (InitError.buildFailure m), s1, acts1)
      | Except.ok () =>
        let vs := VectorStore.built texts
        let r : Retriever := ⟨vs, 3⟩
        let s2 : ServiceState :=
          { s1 with vectorstore := some vs, llm := some (), retriever := some r,
                    qa_chain := some ⟨r⟩, initialized := true }
        (Except.ok ⟨"success", "RAG service initialized successfully", some texts.length⟩,
          s2, acts1 ++ [Action.buildVectorStore, Action.initLLM, Action.buildChain])

/-- The dict returned by `RAGService.get_status` (rag_service.py lines
167-173): the initialized flag plus two filesystem existence checks. -/
structure StatusResponse where
  initialized : Bool
  speech_file_exists : Bool
  vector_db_exists : Bool
deriving DecidableEq, Repr

/-- Translation of `RAGService.get_status`. -/
def get_status (env : InitEnv) (s : ServiceState) : StatusResponse :=
  ⟨s.initialized, env.speechFileExists, env.chromaDirExists⟩

/-- The exceptions that can escape `RAGService.ask_question`:
`RuntimeError("RAG service not initialized...")` (line 136), a missing
attribute on the half-built object (`AttributeError`), or an exception from
an external capability (retriever / llm); the `except` clause at lines
163-165 logs and re-raises. -/
inductive RagError where
  | notInitialized : RagError
  | attributeError : RagError
  | capability : String → RagError
deriving DecidableEq, Repr

/-- One entry of the `sources` list built at rag_service.py lines 148-154. -/
structure SourceEntry where
  content : String
  metadata : List (String × String)
deriving DecidableEq, Repr

/-- The dict returned by `RAGService.ask_question` (lines 156-161). -/
structure AskResult where
  question : String
  answer : String
  sources : List SourceEntry
  sources_count : Nat
deriving DecidableEq, Repr

/-- The external capabilities that `ask_question` invokes. `search n st q k`
is the result of the n-th retriever invocation of the run (the retriever is
an external, possibly stateful similarity search over the store); `generate`
is the Ollama model called on the rendered prompt. Either may raise. -/
structure AskEnv where
  search : Nat → VectorStore → String → Nat → Except String (List Doc)
  generate : String → Except String String

/-- Translation of the `format_docs` closure (rag_service.py lines 110-111):
the Python source joins page contents with the string literal `"\\n\\n"`,
i.e. the four characters backslash, n, backslash, n — not two newline
characters. -/
def format_docs (docs : List Doc) : String :=
  String.intercalate "\\n\\n" (docs.map Doc.page_content)

/-- Translation of the prompt template (rag_service.py lines 100-107),
rendered with the context and question substituted for its two
placeholders. -/
def promptTemplate (context question : String) : String :=
  "Answer the question based on the following context from Dr. B.R. Ambedkar's speech:\n\nContext: "
    ++ context ++ "\n\nQuestion: " ++ question ++ "\n\nAnswer: "

/-- Translation of `RAGService.ask_question` (rag_service.py lines 133-165).
`base` is the index of the next retriever invocation; the returned `Nat` is
the index after the call, so the difference counts retriever invocations.
The method first invokes `self.retriever` for the source documents (line
142) and then invokes `self.qa_chain` (line 145), whose context branch
`self.retriever | format_docs` invokes the chain's captured retriever a
second time before rendering the prompt and generating. The body assigns no
attribute of `self`, so the state is returned unchanged on every path. -/
def ask_question (env : AskEnv) (s : ServiceState) (q : String) (base : Nat) :
    Except RagError AskResult × ServiceState × Nat :=
  if s.initialized = false then (Except.error RagError.notInitialized, s, base)
  else
    match s.retriever with
    | none => (Except.error RagError.attributeError, s, base)
    | some r =>
      match env.search base r.store q r.k with
      | Except.error m => (Except.error (RagError.capability m), s, base + 1)
      | Except.ok source_docs =>
        match s.qa_chain with
        | none => (Except.error RagError.attributeError, s, base + 1)
        | some c =>
          match env.search (base + 1) c.retriever.store q c.retriever.k with
          | Except.error m => (Except.error (RagError.capability m), s, base + 2)
          | Except.ok ctx_docs =>
            let context := format_docs ctx_docs
            match env.generate (promptTemplate context q) with
            | Except.error m => (Except.error (RagError.capability m), s, base + 2)
            | Except.ok answer =>
              (Except.ok
                ⟨q, answer,
                 source_docs.map (fun d => ⟨d.page_content, d.metadata⟩),
                 source_docs.length⟩, s, base + 2)

/-- An HTTP response of the FastAPI layer: either the question response
model or an `HTTPException` with a status code and detail string. -/
inductive HttpResponse where
  | ok : AskResult → HttpResponse
  | err : Nat → String → HttpResponse
deriving DecidableEq, Repr

/-- The `str(e)` detail attached by server.py when an initialization error
reaches an endpoint's generic `except` clause. -/
def errMessage : InitError → String
  | InitError.fileNotFound => "Speech file not found"
  | InitError.buildFailure m => m

/-- Mapping of an `ask_question` outcome to the HTTP response (server.py
lines 109-115): success is returned, `RuntimeError` becomes 503, any other
exception becomes 500; `n` is the number of `initialize()` calls the
endpoint made before asking. -/
def finishAsk (aenv : AskEnv) (s : ServiceState) (q : String) (n : Nat) :
    HttpResponse × ServiceState × Nat :=
  match ask_question aenv s q 0 with
  | (Except.ok r, s2, _) => (HttpResponse.ok r, s2, n)
  | (Except.error RagError.notInitialized, s2, _) =>
      (HttpResponse.err 503 "RAG service not initialized", s2, n)
  | (Except.error RagError.attributeError, s2, _) =>
      (HttpResponse.err 500 "attribute error", s2, n)
  | (Except.error (RagError.capability m), s2, _) => (HttpResponse.err 500 m, s2, n)

/-- Translation of the `/api/ambedkar/ask` endpoint (server.py lines
101-115): if the service is not initialized it auto-initializes once, then
asks; errors map to HTTP 503/500. The returned `Nat` counts the
`initialize()` calls the endpoint performed. -/
def ask_endpoint (ienv : InitEnv) (aenv : AskEnv) (s : ServiceState) (q : String) :
    HttpResponse × ServiceState × Nat :=
  if s.initialized then finishAsk aenv s q 0
  else
    match initService ienv s with
    | (Except.error e, s1, _) => (HttpResponse.err 500 (errMessage e), s1, 1)
    | (Except.ok _, s1, _) => finishAsk aenv s1 q 1

/-- The module-level class attribute `RAGService._instance`
(rag_service.py line 26). -/
structure PyWorld where
  instanceVar : Option ServiceState
deriving DecidableEq, Repr

/-- Translation of `RAGService.__init__` (rag_service.py lines 34-39): when
the stored flag is false the three attributes are (re)set to None, otherwise
the body does nothing. -/
def initMethod (s : ServiceState) : ServiceState :=
  if s.initialized = false then
    { s with vectorstore := none, qa_chain := none, embeddings := none,
             initialized := false }
  else s

/-- Translation of `RAGService()` construction: `__new__` (lines 28-32)
creates the single instance with `initialized = False` only when
`_instance` is None, then `__init__` runs on that instance. The returned
state is the instance the caller receives and the world stores. -/
def ctorService (w : PyWorld) : ServiceState × PyWorld :=
  let s0 := match w.instanceVar with
    | none => ServiceState.fresh
    | some s => s
  let s1 := initMethod s0
  (s1, ⟨some s1⟩)

/-- The world transformation of one `RAGService()` call. -/
def ctorWorld (w : PyWorld) : PyWorld := (ctorService w).2

/-- Program counter of one caller running the body of
`RAGService.initialize` concurrently, at the granularity of its shared-state
accesses: `check` reads `self.initialized` (line 43); `build` performs the
whole load/split/embed/index-build body; `setFlag` writes
`self.initialized = True` (line 120). There is no lock anywhere in
rag_service.py. -/
inductive PC where
  | check : PC
  | build : PC
  | setFlag : PC
  | doneNoop : PC
  | doneBuilt : PC
deriving DecidableEq, Repr

/-- Whether a caller has finished (either the no-op return of line 44 or the
success return after setting the flag). -/
def PC.done : PC → Bool
  | PC.doneNoop => true
  | PC.doneBuilt => true
  | _ => false

/-- How many full builds a caller at this program point has performed. -/
def PC.builds : PC → Nat
  | PC.setFlag => 1
  | PC.doneBuilt => 1
  | _ => 0

/-- Shared state of two callers racing through `initialize()`: the shared
`self.initialized` flag, the total number of full builds performed, and each
caller's program counter. -/
structure ConcState where
  flag : Bool
  buildCount : Nat
  pc1 : PC
  pc2 : PC
deriving DecidableEq, Repr

/-- One atomic step of a single caller: new program counter, new shared
flag, and the number of full builds this step performs. -/
def threadStep : PC → Bool → PC × Bool × Nat
  | PC.check, true => (PC.doneNoop, true, 0)
  | PC.check, false => (PC.build, false, 0)
  | PC.build, f => (PC.setFlag, f, 1)
  | PC.setFlag, _ => (PC.doneBuilt, true, 0)
  | PC.doneNoop, f => (PC.doneNoop, f, 0)
  | PC.doneBuilt, f => (PC.doneBuilt, f, 0)

/-- Scheduler step: `who = false` steps caller 1, `who = true` steps
caller 2. -/
def step (who : Bool) (c : ConcState) : ConcState :=
  if who then
    let t := threadStep c.pc2 c.flag
    ⟨t.2.1, c.buildCount + t.2.2, c.pc1, t.1⟩
  else
    let t := threadStep c.pc1 c.flag
    ⟨t.2.1, c.buildCount + t.2.2, t.1, c.pc2⟩

/-- Run a whole interleaving schedule. -/
def runSched (sched : List Bool) (c : ConcState) : ConcState :=
  sched.foldl (fun a w => step w a) c

/-- Both callers about to enter `initialize()` on the fresh service. -/
def concInit : ConcState := ⟨false, 0, PC.check, PC.check⟩

/-- Invariant of the two-caller race: the build count equals the builds the
two program counters account for, the shared flag is set exactly when some
caller has completed a build, and a no-op return is only possible when the
other caller has completed a build. -/
def ConcInv (c : ConcState) : Prop :=
  c.buildCount = c.pc1.builds + c.pc2.builds ∧
  (c.flag = true ↔ (c.pc1 = PC.doneBuilt ∨ c.pc2 = PC.doneBuilt)) ∧
  (c.pc1 = PC.doneNoop → c.pc2 = PC.doneBuilt) ∧
  (c.pc2 = PC.doneNoop → c.pc1 = PC.doneBuilt)

/-- Concrete fixtures used by witnesses and counterexamples. -/
def docA : Doc := ⟨"A", []⟩

def docB : Doc := ⟨"B", []⟩

/-- A service state after a successful initialization that reused the
persisted index. -/
def sReady : ServiceState :=
  ⟨true, some VectorStore.loaded, some ⟨⟨VectorStore.loaded, 3⟩⟩, some (),
   some (), some ⟨VectorStore.loaded, 3⟩⟩

/-- Environment where the speech file and the persisted index directory both
exist. -/
def envReuse : InitEnv := ⟨true, true, [⟨"text", []⟩], [docA], Except.ok ()⟩

/-- Environment where the index must be built and the external build
raises. -/
def envBuildFail : InitEnv :=
  ⟨true, false, [⟨"text", []⟩], [docA], Except.error "boom"⟩

/-- Environment with an empty document: the splitter produces zero chunks,
and the persisted index directory already exists. -/
def envEmptyDoc : InitEnv :=
  ⟨true, true, [⟨"", [("source", "speech.txt")]⟩], [], Except.ok ()⟩

/-- A stateful retriever: its first invocation returns `docA`, every later
invocation returns `docB`; the generator echoes its prompt. -/
def askEnvStateful : AskEnv :=
  ⟨fun n _ _ _ => if n = 0 then Except.ok [docA] else Except.ok [docB],
   fun p => Except.ok p⟩

/-- A deterministic retriever returning `docA` on every invocation; the
generator echoes its prompt. -/
def askEnvDet : AskEnv :=
  ⟨fun _ _ _ _ => Except.ok [docA], fun p => Except.ok p⟩

/-- A retriever whose every invocation raises; the generator echoes. -/
def askEnvFail : AskEnv :=
  ⟨fun _ _ _ _ => Except.error "boom", fun p => Except.ok p⟩

/-- Helper: `ask_question` returns its input state unchanged on every path,
since the method body assigns no attribute of `self`. -/
theorem ask_question_state (env : AskEnv) (s : ServiceState) (q : String)
    (base : Nat) : (ask_question env s q base).2.1 = s := by
  unfold ask_question
  repeat' split <;> try rfl
  dsimp only
  split <;> rfl

/-- Helper: `finishAsk` reports exactly the `initialize()` call count it was
given, whatever `ask_question` returns. -/
theorem finishAsk_count (aenv : AskEnv) (s : ServiceState) (q : String)
    (n : Nat) : (finishAsk aenv s q n).2.2 = n := by
  unfold finishAsk
  repeat' split <;> rfl

/-- Helper: `__init__` is idempotent on the service state. -/
theorem initMethod_idem (s : ServiceState) :
    initMethod (initMethod s) = initMethod s := by
  rcases s with ⟨i, v, qc, e, l, r⟩
  cases i <;> simp [initMethod]

/-- Helper: one `RAGService()` call after another changes nothing. -/
theorem ctorWorld_idem (w : PyWorld) :
    ctorService (ctorWorld w) = ((ctorService w).1, ctorWorld w) := by
  rcases w with ⟨_ | s0⟩ <;>
    simp [ctorService, ctorWorld, initMethod_idem]

/-- C1: on a service whose initialization has already succeeded, every
further `initialize()` call returns the already-initialized no-op result,
performs no loading, splitting, embedding or index work (the action list is
empty), and leaves the service state — vector store, retriever, qa chain —
exactly as it was. -/
theorem c1_init_idempotent (env : InitEnv) (s : ServiceState)
    (h : s.initialized = true) :
    initService env s =
      (Except.ok ⟨"already_initialized", "RAG service already initialized", none⟩,
        s, []) := by
  simp [initService, h]

/-- C1 witness: the already-initialized service observes the no-op. -/
theorem c1_witness :
    sReady.initialized = true ∧
    initService envReuse sReady =
      (Except.ok ⟨"already_initialized", "RAG service already initialized", none⟩,
        sReady, []) :=
  ⟨rfl, c1_init_idempotent envReuse sReady rfl⟩

/-- C2 counterexample: `ask_question` performs two separate retriever
invocations (the counter advances from 0 to 2), and with a stateful
retriever whose two invocations differ, the returned sources (built from
the first invocation, `docA`) are not the chunks whose texts were
concatenated into the context handed to the generator (the second
invocation, `docB`) — the echoing generator exposes the context inside the
answer. So displayed provenance can differ from the actual grounding. -/
theorem c2_counterexample :
    (ask_question askEnvStateful sReady "q" 0).2.2 = 2 ∧
    (ask_question askEnvStateful sReady "q" 0).1 =
      Except.ok ⟨"q", promptTemplate (format_docs [docB]) "q",
        [docA].map (fun d => ⟨d.page_content, d.metadata⟩), 1⟩ ∧
    format_docs [docA] ≠ format_docs [docB] := by
  refine ⟨rfl, rfl, by decide⟩

/-- C2 amended: `ask_question` makes two retrieval calls, not one; when the
retriever is a deterministic function of the question (every invocation
returns the same chunks) the sources returned are exactly the chunks whose
texts, joined by `format_docs`, formed the context of the generated answer,
and the retrieval-call counter advances by exactly 2. -/
theorem c2_deterministic_provenance (env : AskEnv) (s : ServiceState)
    (q a : String) (base : Nat) (r : Retriever) (ds : List Doc)
    (h : s.initialized = true) (hr : s.retriever = some r)
    (hc : s.qa_chain = some ⟨r⟩)
    (hdet : ∀ n, env.search n r.store q r.k = Except.ok ds)
    (hgen : env.generate (promptTemplate (format_docs ds) q) = Except.ok a) :
    ask_question env s q base =
      (Except.ok ⟨q, a, ds.map (fun d => ⟨d.page_content, d.metadata⟩),
        ds.length⟩, s, base + 2) := by
  have h1 := hdet base
  have h2 := hdet (base + 1)
  simp [ask_question, h, hr, hc, h1, h2, hgen]

/-- C2 witness: with the deterministic retriever, sources and context agree. -/
theorem c2_witness :
    ask_question askEnvDet sReady "q" 0 =
      (Except.ok ⟨"q", promptTemplate (format_docs [docA]) "q",
        [docA].map (fun d => ⟨d.page_content, d.metadata⟩),
        ([docA] : List Doc).length⟩, sReady, 0 + 2) :=
  c2_deterministic_provenance askEnvDet sReady "q"
    (promptTemplate (format_docs [docA]) "q") 0 ⟨VectorStore.loaded, 3⟩ [docA]
    rfl rfl rfl (fun _ => rfl) rfl

/-- C3: `ask_question` on a not-initialized service raises the not-ready
`RuntimeError` (never an answer), and the `/api/ambedkar/ask` endpoint
performs exactly one `initialize()` call before asking when the service is
not initialized. -/
theorem c3_not_ready_auto_init (ienv : InitEnv) (aenv : AskEnv)
    (s : ServiceState) (q : String) (base : Nat)
    (h : s.initialized = false) :
    (ask_question aenv s q base).1 = Except.error RagError.notInitialized ∧
    (ask_endpoint ienv aenv s q).2.2 = 1 := by
  constructor
  · simp [ask_question, h]
  · simp only [ask_endpoint, h, Bool.false_eq_true, if_false]
    rcases he : initService ienv s with ⟨res, s1, acts⟩
    cases res <;> simp [finishAsk_count]

/-- C3 witness: the fresh service refuses to answer, and the endpoint
auto-initializes exactly once. -/
theorem c3_witness :
    ServiceState.fresh.initialized = false ∧
    (ask_question askEnvDet ServiceState.fresh "q" 0).1 =
      Except.error RagError.notInitialized ∧
    (ask_endpoint envReuse askEnvDet ServiceState.fresh "q").2.2 = 1 :=
  ⟨rfl,
   (c3_not_ready_auto_init envReuse askEnvDet ServiceState.fresh "q" 0 rfl).1,
   (c3_not_ready_auto_init envReuse askEnvDet ServiceState.fresh "q" 0 rfl).2⟩

/-- C4: the `format_docs` closure joins retrieved chunk texts with the
Python string literal written `"\\n\\n"`, which is the four characters
backslash, n, backslash, n — not a double line break. Evaluating the code
at two retrieved chunks "A" and "B" yields the literal-backslash join,
which differs from the double-line-break join the claim states. -/
theorem c4_join_is_literal_backslash :
    format_docs [docA, docB] = "A\\n\\nB" ∧
    "A\\n\\nB" ≠ "A\n\nB" := by
  refine ⟨rfl, by decide⟩

/-- C5 counterexample: a failed `initialize()` (external index build raises
"boom") re-raises the error, but the service has no Failed state: the
status read afterwards is identical to the status of the never-initialized
service under the same environment, so "initialization failed" and "not yet
initialized" are not observably different — only two status responses
exist, not three. -/
theorem c5_counterexample :
    (initService envBuildFail ServiceState.fresh).1 =
      Except.error (InitError.buildFailure "boom") ∧
    get_status envBuildFail (initService envBuildFail ServiceState.fresh).2.1 =
      get_status envBuildFail ServiceState.fresh ∧
    get_status envBuildFail ServiceState.fresh = ⟨false, true, false⟩ :=
  ⟨rfl, rfl, rfl⟩

/-- C5 amended: every failed `initialize()` surfaces the triggering error
with its original cause (the re-raise preserves it) and leaves the
initialized flag false, but there is no Failed state: `get_status` after the
failure equals `get_status` before the attempt, so a failed initialization
is indistinguishable from a never-attempted one; the status only
distinguishes ready from not-ready. -/
theorem c5_error_surfaced_no_failed_state (env : InitEnv) (s : ServiceState)
    (m : String) (h : s.initialized = false) :
    (env.speechFileExists = false →
      initService env s = (Except.error InitError.fileNotFound, s, []) ∧
      get_status env (initService env s).2.1 = get_status env s) ∧
    (env.speechFileExists = true → env.chromaDirExists = false →
      env.buildOutcome = Except.error m →
      (initService env s).1 = Except.error (InitError.buildFailure m) ∧
      (initService env s).2.1.initialized = false ∧
      get_status env (initService env s).2.1 = get_status env s) := by
  constructor
  · intro h1
    simp [initService, h, h1, get_status]
  · intro h1 h2 h3
    simp [initService, h, h1, h2, h3, get_status]

/-- C5 witness: the failed build surfaces "boom" and the status is the
not-initialized one. -/
theorem c5_witness :
    (initService envBuildFail ServiceState.fresh).1 =
      Except.error (InitError.buildFailure "boom") ∧
    (initService envBuildFail ServiceState.fresh).2.1.initialized = false ∧
    get_status envBuildFail (initService envBuildFail ServiceState.fresh).2.1 =
      get_status envBuildFail ServiceState.fresh := by
  have h := (c5_error_surfaced_no_failed_state envBuildFail ServiceState.fresh
    "boom" rfl).2 rfl rfl rfl
  exact ⟨h.1, h.2.1, h.2.2⟩

/-- C6: at initialization the pre-existence of the index directory alone
decides reuse versus rebuild: if it exists the persisted store is loaded
and no chunk embedding or index build happens; if not, a new index is built
(embedding all chunks) from the current split result and persisted. -/
theorem c6_dir_determines_reuse (env : InitEnv) (s : ServiceState)
    (h1 : s.initialized = false) (h2 : env.speechFileExists = true) :
    (env.chromaDirExists = true →
      (initService env s).2.1.vectorstore = some VectorStore.loaded ∧
      Action.loadVectorStore ∈ (initService env s).2.2 ∧
      Action.buildVectorStore ∉ (initService env s).2.2) ∧
    (env.chromaDirExists = false → env.buildOutcome = Except.ok () →
      (initService env s).2.1.vectorstore =
        some (VectorStore.built env.splitResult) ∧
      Action.buildVectorStore ∈ (initService env s).2.2) := by
  constructor
  · intro h3
    simp [initService, h1, h2, h3]
  · intro h3 h4
    simp [initService, h1, h2, h3, h4]

/-- C6 witness: with the directory present the store is loaded, never
built. -/
theorem c6_witness :
    (initService envReuse ServiceState.fresh).2.1.vectorstore =
      some VectorStore.loaded ∧
    Action.loadVectorStore ∈ (initService envReuse ServiceState.fresh).2.2 ∧
    Action.buildVectorStore ∉ (initService envReuse ServiceState.fresh).2.2 :=
  (c6_dir_determines_reuse envReuse ServiceState.fresh rfl rfl).1 rfl

/-- C7 counterexample: with an empty document (the splitter produces zero
chunks) and a pre-existing index directory, `initialize()` does not fail at
all: it returns success with `chunks_count = 0`, the state becomes
initialized, and `get_status` reports `initialized = true` — there is no
EmptyCorpusError and no Failed state in the code. -/
theorem c7_counterexample :
    envEmptyDoc.splitResult = [] ∧
    (initService envEmptyDoc ServiceState.fresh).1 =
      Except.ok ⟨"success", "RAG service initialized successfully", some 0⟩ ∧
    (initService envEmptyDoc ServiceState.fresh).2.1.initialized = true ∧
    get_status envEmptyDoc (initService envEmptyDoc ServiceState.fresh).2.1 =
      ⟨true, true, true⟩ :=
  ⟨rfl, rfl, rfl, rfl⟩

/-- C7 amended: the code has no empty-corpus check. On an empty split
result, if the index directory pre-exists `initialize()` succeeds with
`chunks_count = 0`; otherwise the zero chunks are handed to the external
index build, and if that build raises, its error is re-raised while the
initialized flag stays false, so a later `get_status` reports
`initialized = false`. -/
theorem c7_empty_corpus_behavior (env : InitEnv) (s : ServiceState)
    (m : String) (h1 : s.initialized = false)
    (h2 : env.speechFileExists = true) (h3 : env.splitResult = []) :
    (env.chromaDirExists = true →
      (initService env s).1 =
        Except.ok ⟨"success", "RAG service initialized successfully", some 0⟩ ∧
      (initService env s).2.1.initialized = true) ∧
    (env.chromaDirExists = false → env.buildOutcome = Except.error m →
      (initService env s).1 = Except.error (InitError.buildFailure m) ∧
      (initService env s).2.1.initialized = false ∧
      (get_status env (initService env s).2.1).initialized = false) := by
  constructor
  · intro h4
    simp [initService, h1, h2, h3, h4]
  · intro h4 h5
    simp [initService, h1, h2, h3, h4, h5, get_status]

/-- C7 witness: the empty-document service initializes successfully when
the index directory exists. -/
theorem c7_witness :
    (initService envEmptyDoc ServiceState.fresh).1 =
      Except.ok ⟨"success", "RAG service initialized successfully", some 0⟩ ∧
    (initService envEmptyDoc ServiceState.fresh).2.1.initialized = true :=
  (c7_empty_corpus_behavior envEmptyDoc ServiceState.fresh "x" rfl rfl rfl).1 rfl

/-- C8: an error raised inside `ask_question` (here the retriever raising on
its first invocation) is surfaced to that caller as the capability error,
the service state after the failed call is exactly the state before it, and
a subsequent `ask_question` on that state behaves exactly as it would have
without the failed call. -/
theorem c8_ask_error_frame (env env2 : AskEnv) (s : ServiceState)
    (q q2 : String) (base b2 : Nat) (r : Retriever) (m : String)
    (h : s.initialized = true) (hr : s.retriever = some r)
    (hs : env.search base r.store q r.k = Except.error m) :
    (ask_question env s q base).1 = Except.error (RagError.capability m) ∧
    (ask_question env s q base).2.1 = s ∧
    ask_question env2 (ask_question env s q base).2.1 q2 b2 =
      ask_question env2 s q2 b2 := by
  have h2 := ask_question_state env s q base
  refine ⟨?_, h2, by rw [h2]⟩
  simp [ask_question, h, hr, hs]

/-- C8 witness: a failing retrieval surfaces "boom" and the ready state
survives untouched. -/
theorem c8_witness :
    (ask_question askEnvFail sReady "q" 0).1 =
      Except.error (RagError.capability "boom") ∧
    (ask_question askEnvFail sReady "q" 0).2.1 = sReady ∧
    ask_question askEnvDet (ask_question askEnvFail sReady "q" 0).2.1 "q2" 0 =
      ask_question askEnvDet sReady "q2" 0 :=
  c8_ask_error_frame askEnvFail askEnvDet sReady "q" "q2" 0 0
    ⟨VectorStore.loaded, 3⟩ "boom" rfl rfl rfl

/-- Helper: the race invariant holds initially. -/
theorem concInv_init : ConcInv concInit := by
  refine ⟨rfl, ?_, ?_, ?_⟩ <;> simp [concInit]

/-- Helper: every interleaved step preserves the race invariant. -/
theorem concInv_step (w : Bool) (c : ConcState) (h : ConcInv c) :
    ConcInv (step w c) := by
  obtain ⟨h1, h2, h3, h4⟩ := h
  rcases c with ⟨flag, n, p1, p2⟩
  cases w <;> cases flag <;> cases p1 <;> cases p2 <;>
    simp_all [step, threadStep, ConcInv, PC.builds]

/-- Helper: the race invariant holds after any schedule. -/
theorem concInv_run (sched : List Bool) (c : ConcState) (h : ConcInv c) :
    ConcInv (runSched sched c) := by
  induction sched generalizing c with
  | nil => exact h
  | cons w ws ih => exact ih (step w c) (concInv_step w c h)

/-- C9 counterexample: `initialize()` has no lock; in the interleaving where
both callers pass the `self.initialized` check before either finishes, both
perform the full embedding-and-index build — two full builds, not exactly
one — even though both callers finish. -/
theorem c9_counterexample :
    (runSched [false, true, false, false, true, true] concInit).buildCount = 2 ∧
    (runSched [false, true, false, false, true, true] concInit).pc1.done = true ∧
    (runSched [false, true, false, false, true, true] concInit).pc2.done = true ∧
    (2 : Nat) ≠ 1 := by decide

/-- C9 amended: `initialize()` is not guarded by any mutual exclusion — it
only tests the initialized flag at entry — so two racing callers may
duplicate the full build; what holds is the bound from the flag test: in
every interleaving in which both callers finish, the service ends
initialized and between one and two full builds occurred (one when the
schedule serializes the callers, two when both pass the check first). -/
theorem c9_no_lock_build_bounds (sched : List Bool)
    (h1 : (runSched sched concInit).pc1.done = true)
    (h2 : (runSched sched concInit).pc2.done = true) :
    (runSched sched concInit).flag = true ∧
    1 ≤ (runSched sched concInit).buildCount ∧
    (runSched sched concInit).buildCount ≤ 2 := by
  have hinv := concInv_run sched concInit concInv_init
  obtain ⟨e1, e2, e3, e4⟩ := hinv
  rcases hp1 : (runSched sched concInit).pc1 <;>
    rcases hp2 : (runSched sched concInit).pc2 <;>
    simp_all [PC.done, PC.builds]

/-- C9 witness: the serialized schedule finishes both callers with exactly
one build. -/
theorem c9_witness :
    (runSched [false, false, false, true] concInit).pc1.done = true ∧
    (runSched [false, false, false, true] concInit).pc2.done = true ∧
    ((runSched [false, false, false, true] concInit).flag = true ∧
     1 ≤ (runSched [false, false, false, true] concInit).buildCount ∧
     (runSched [false, false, false, true] concInit).buildCount ≤ 2) :=
  ⟨by decide, by decide,
   c9_no_lock_build_bounds [false, false, false, true] (by decide) (by decide)⟩

/-- C10: `RAGService()` always hands back the single stored instance —
construction is idempotent on the world and on the returned instance, for
any number of repetitions — and re-constructing after a successful
initialization returns the initialized instance with its flag, vector
store and qa chain untouched, because `__init__` only resets attributes
when the instance is not initialized. -/
theorem c10_singleton_preserved (w : PyWorld) (s : ServiceState)
    (h : s.initialized = true) :
    ctorService ⟨some s⟩ = (s, ⟨some s⟩) ∧
    ctorService (ctorWorld w) = ((ctorService w).1, ctorWorld w) ∧
    ∀ n : Nat, ctorWorld^[n] (ctorWorld w) = ctorWorld w := by
  refine ⟨?_, ctorWorld_idem w, ?_⟩
  · simp [ctorService, initMethod, h]
  · intro n
    induction n with
    | zero => rfl
    | succ k ih =>
      have hfix : ctorWorld (ctorWorld w) = ctorWorld w :=
        congrArg Prod.snd (ctorWorld_idem w)
      rw [Function.iterate_succ_apply, hfix, ih]

/-- C10 witness: the initialized instance survives repeated construction. -/
theorem c10_witness :
    sReady.initialized = true ∧
    ctorService ⟨some sReady⟩ = (sReady, ⟨some sReady⟩) ∧
    ctorWorld^[3] (ctorWorld ⟨none⟩) = ctorWorld ⟨none⟩ :=
  ⟨rfl, (c10_singleton_preserved ⟨none⟩ sReady rfl).1,
   (c10_singleton_preserved ⟨none⟩ sReady rfl).2.2 3⟩

end AmbedkarGPT
